import Mathlib

/-!
Verification of the parse-tripit repository (src/countdown.py and src/tranform.py)
against its natural-language specification.

Shallow embedding conventions:
* A Python `datetime` is modelled by its wall-clock value in seconds on an affine
  timeline (`Int`), together with an optional fixed UTC offset in seconds
  (`none` = timezone-naive, `some z` = aware with offset `z`).
* A Python `date` is modelled by its day number (days since 0000-03-01 in the
  proleptic Gregorian calendar, matching the civil-calendar conversion functions
  below, which cover the years with `1 <= year`).
* `date.today()` / `datetime.now().date()` are impure; every function that reads
  them takes the current day number `today : Int` as an explicit parameter.
* Python exceptions are modelled with `Except PyExn`; the `try/except` blocks of
  the source catch them and turn them into strings, modelled by `Sum String _`
  results (countdown returns `String` in both cases, as the source does).
* Python `str.strip()` is modelled over the ASCII whitespace characters, which
  is the relevant fragment for the strings handled here.
-/

/-- A value as produced by icalendar property access `.dt`: a datetime
(wall-clock seconds plus optional UTC-offset seconds), a plain date
(day number), or some other non-date value. -/
inductive PyVal where
  | dtime (wall : Int) (tz : Option Int)
  | date (day : Int)
  | other
deriving DecidableEq, Repr

/-- A VEVENT as seen through `event.get(...)`: each property either absent
(`none`, Python `get` returns `None`) or present. -/
structure VEvent where
  summary : Option String
  location : Option String
  url : Option String
  dtstart : Option PyVal
  dtend : Option PyVal
  description : Option String
  uid : Option String
  created : Option PyVal
  dtstamp : Option PyVal
  lastModified : Option PyVal
  sequence : Option Int
  status : Option String
  transp : Option String
deriving DecidableEq, Repr

/-- Exceptions raised by the modelled fragment: `attrError` models the
AttributeError from `None.dt`, `typeError` the TypeError from subtracting
a date from a non-date value. -/
inductive PyExn where
  | attrError
  | typeError
deriving DecidableEq, Repr

/-- The message text interpolated into the error strings of the source
`except` handlers (Python would render the AttributeError with quotes around
NoneType and dt; the quotes are omitted here). -/
def exnMsg : PyExn → String
  | .attrError => "AttributeError: NoneType object has no attribute dt"
  | .typeError => "TypeError: unsupported operand types for subtraction"

/-- Outcome of the fetch-and-parse stage (`requests.get` + `raise_for_status`
+ `Calendar.from_ical`): a parsed event list, a `requests` RequestException
with message `msg`, or any other exception with message `msg`. -/
inductive FetchOutcome where
  | ok (events : List VEvent)
  | reqError (msg : String)
  | parseError (msg : String)
deriving DecidableEq, Repr

/-! ### Civil calendar arithmetic

Day numbers count days since 0000-03-01 (proleptic Gregorian); the conversion
functions below are the standard era-based algorithms, valid for `1 <= year`
(all concrete dates used in this development). -/

/-- Day number of the civil date `y-m-d` (days since 0000-03-01). -/
def daysFromCivil (y m d : Nat) : Nat :=
  let yp := if m ≤ 2 then y - 1 else y
  let mp := (m + 9) % 12
  yp * 365 + yp / 4 - yp / 100 + yp / 400 + (153 * mp + 2) / 5 + (d - 1)

/-- Civil date `(y, m, d)` of a day number (inverse of `daysFromCivil`). -/
def civilFromDays (n : Nat) : Nat × Nat × Nat :=
  let era := n / 146097
  let doe := n % 146097
  let yoe := (doe - doe / 1460 + doe / 36524 - doe / 146096) / 365
  let y := yoe + era * 400
  let doy := doe - (365 * yoe + yoe / 4 - yoe / 100)
  let mp := (5 * doy + 2) / 153
  let d := doy - (153 * mp + 2) / 5 + 1
  let m := if mp < 10 then mp + 3 else mp - 9
  if m ≤ 2 then (y + 1, m, d) else (y, m, d)

/-- Wall-clock seconds of the civil datetime `y-m-d h:mi:s` on the affine
timeline used for `PyVal.dtime`. -/
def civilSec (y m d h mi s : Nat) : Int :=
  (daysFromCivil y m d : Int) * 86400 + (h : Int) * 3600 + (mi : Int) * 60 + (s : Int)

/-- English month name, as produced by strftime directive B. -/
def monthName : Nat → String
  | 1 => "January"
  | 2 => "February"
  | 3 => "March"
  | 4 => "April"
  | 5 => "May"
  | 6 => "June"
  | 7 => "July"
  | 8 => "August"
  | 9 => "September"
  | 10 => "October"
  | 11 => "November"
  | 12 => "December"
  | _ => ""

/-- Zero-pad a numeral to two digits (strftime directive d). -/
def pad2 (n : Nat) : String :=
  if n < 10 then "0" ++ toString n else toString n

/-- Zero-pad a year to four digits (strftime directive Y). -/
def pad4 (n : Nat) : String :=
  if n < 10 then "000" ++ toString n
  else if n < 100 then "00" ++ toString n
  else if n < 1000 then "0" ++ toString n
  else toString n

/-- strftime "%Y-%m-%d" of a day number. -/
def fmtYMD (day : Int) : String :=
  let c := civilFromDays day.toNat
  pad4 c.1 ++ "-" ++ pad2 c.2.1 ++ "-" ++ pad2 c.2.2

/-- strftime "%B %d" of a day number. -/
def fmtBD (day : Int) : String :=
  let c := civilFromDays day.toNat
  monthName c.2.1 ++ " " ++ pad2 c.2.2

/-- strftime "%B %d, %Y" of a day number. -/
def fmtBDY (day : Int) : String :=
  let c := civilFromDays day.toNat
  monthName c.2.1 ++ " " ++ pad2 c.2.2 ++ ", " ++ toString c.1

/-- The date component of a value: `datetime.date()` truncates the wall clock
to its calendar day, a `date` is its own date component, and non-date values
have none (`isinstance(x, datetime) or isinstance(x, date)` fails). -/
def dateComponent : PyVal → Option Int
  | .dtime w _ => some (w.fdiv 86400)
  | .date d => some d
  | .other => none

/-! ### Python string operations used by the title cleaning -/

/-- The ASCII whitespace characters removed by Python `str.strip()`. -/
def isPySpace (c : Char) : Bool :=
  c = ' ' || c = '\t' || c = '\n' || c = '\x0d' || c = '\x0b' || c = '\x0c'

/-- The `str.strip()`: drop leading and trailing whitespace. -/
def pyStrip (l : List Char) : List Char :=
  ((l.dropWhile isPySpace).reverse.dropWhile isPySpace).reverse

/-- Fuel-driven worker for `replaceAll`; at every position, if the pattern
starts here, skip it, otherwise keep the character: the left-to-right,
non-overlapping scan of Python `str.replace(pat, "")`. The fuel is an upper
bound on the input length, so it never runs out in `replaceAll`. -/
def replaceAllF (p : List Char) : Nat → List Char → List Char
  | 0, s => s
  | _ + 1, [] => []
  | n + 1, c :: rest =>
    if p.isPrefixOf (c :: rest) then replaceAllF p n (rest.drop (p.length - 1))
    else c :: replaceAllF p n rest

/-- Python `s.replace(p, "")` for a non-empty pattern `p` (the degenerate
empty pattern, which Python treats specially, is mapped to the identity; the
only pattern used in this development is non-empty). -/
def replaceAll (p s : List Char) : List Char :=
  match p with
  | [] => s
  | _ :: _ => replaceAllF p s.length s

/-- Whether `p` occurs as a contiguous substring of `s`. -/
def containsSub (p : List Char) : List Char → Bool
  | [] => p.isEmpty
  | c :: rest => p.isPrefixOf (c :: rest) || containsSub p rest

/-- The literal removed from event titles. -/
def placeholderL : List Char := "PLACEHOLDER ONLY:".data

/-- The `event.get("SUMMARY", "").replace("PLACEHOLDER ONLY:", "").strip()`,
the title cleaning shared by the countdown and CSV renderers
(src/countdown.py lines 30 and 97). -/
def cleanTitle (s : String) : String :=
  String.mk (pyStrip (replaceAll placeholderL s.data))

/-- The title cleaning as claim C6 words it: strip the literal only when it
is a prefix, leave other occurrences in place, then trim whitespace. Stated
for comparison with `cleanTitle`, which is what the source computes. -/
def claimPrefixOnlyTitle (s : String) : String :=
  if placeholderL.isPrefixOf s.data then
    String.mk (pyStrip (s.data.drop placeholderL.length))
  else
    String.mk (pyStrip s.data)

/-! ### src/countdown.py: countdown computation -/

/-- The `calculate_days_remaining(event_start, subtract_days)` (src/countdown.py
lines 7-15): `adjusted_today = today + timedelta(days=subtract_days)`, the
start is truncated to its date, and the result is the signed day difference.
`none` models the TypeError raised when the start is not a date or datetime
(the subtraction on line 14 fails there). -/
def calculate_days_remaining (today : Int) (event_start : PyVal) (subtract_days : Int) : Option Int :=
  (dateComponent event_start).map (fun sd => sd - (today + subtract_days))

/-- The `calculate_days_remaining_general` (src/countdown.py lines 76-84), the
verbatim duplicate of `calculate_days_remaining` used by the countdown text
path. -/
def calculate_days_remaining_general (today : Int) (event_start : PyVal) (subtract_days : Int) : Option Int :=
  (dateComponent event_start).map (fun sd => sd - (today + subtract_days))

/-- The `format_date_asana` (src/countdown.py lines 17-20): strftime "%Y-%m-%d"
for dates and datetimes, empty string otherwise. -/
def format_date_asana : PyVal → String
  | .dtime w _ => fmtYMD (w.fdiv 86400)
  | .date d => fmtYMD d
  | .other => ""

/-- The `format_date_general` (src/countdown.py lines 86-89): strftime "%B %d"
for dates and datetimes, "Unknown" otherwise. -/
def format_date_general : PyVal → String
  | .dtime w _ => fmtBD (w.fdiv 86400)
  | .date d => fmtBD d
  | .other => "Unknown"

/-- The `format_date_with_year_general` (src/countdown.py lines 91-94):
strftime "%B %d, %Y" for dates and datetimes, "Unknown" otherwise. -/
def format_date_with_year_general : PyVal → String
  | .dtime w _ => fmtBDY (w.fdiv 86400)
  | .date d => fmtBDY d
  | .other => "Unknown"

/-! ### src/countdown.py: Asana CSV path -/

/-- The Asana CSV header row (src/countdown.py line 27). -/
def asanaHeader : List String :=
  ["Task ID", "Created At", "Completed At", "Last Modified", "Name",
   "Section/Column", "Assignee", "Assignee Email", "Start Date", "Due Date",
   "Tags", "Notes", "Projects", "Parent task", "Blocked By (Dependencies)",
   "Blocking (Dependencies)", "Responsible (Department)", "Expected Cost",
   "Complete By"]

/-- One iteration of the event loop of `parse_ical_to_asana_csv`
(src/countdown.py lines 29-67): returns the appended row, `none` when the
event is filtered out, or the exception the iteration raises.
`event.get("DTSTART")` and `event.get("DTEND")` return `None` for absent
properties and the `.dt` access then raises AttributeError; a non-date start
makes the date subtraction raise TypeError. -/
def asanaEventStep (today off : Int) (e : VEvent) : Except PyExn (Option (List String)) :=
  let name := cleanTitle (e.summary.getD "")
  match e.dtstart with
  | none => .error .attrError
  | some start =>
    match e.dtend with
    | none => .error .attrError
    | some dend =>
      let location := e.location.getD ""
      let url := e.url.getD ""
      let startDateStr := format_date_asana start
      let dueDateStr := format_date_asana dend
      let notes := if url = "" then location
                   else if location = "" then url
                   else location ++ " | " ++ url
      match calculate_days_remaining today start off with
      | none => .error .typeError
      | some days =>
        if 0 ≤ days then
          .ok (some ["", fmtYMD today, "", fmtYMD today, name, "", "", "",
                     startDateStr, dueDateStr, "", notes, "", "", "", "", "", "",
                     startDateStr])
        else .ok none

/-- The event loop of `parse_ical_to_asana_csv`: rows of the included events
in feed order, or the first exception raised. -/
def processAsana (today off : Int) : List VEvent → Except PyExn (List (List String))
  | [] => .ok []
  | e :: rest =>
    match asanaEventStep today off e with
    | .error ex => .error ex
    | .ok row? =>
      match processAsana today off rest with
      | .error ex => .error ex
      | .ok rows =>
        match row? with
        | some row => .ok (row :: rows)
        | none => .ok rows

/-- The `parse_ical_to_asana_csv` (src/countdown.py lines 22-74): on a fetch
RequestException or any other exception the function returns the descriptive
error string (`Sum.inl`), otherwise the header row followed by the included
rows (`Sum.inr`). -/
def parse_ical_to_asana_csv (today off : Int) (f : FetchOutcome) : Sum String (List (List String)) :=
  match f with
  | .reqError m => .inl ("Error fetching iCal data: " ++ m)
  | .parseError m => .inl ("An error occurred: " ++ m)
  | .ok events =>
    match processAsana today off events with
    | .ok rows => .inr (asanaHeader :: rows)
    | .error ex => .inl ("An error occurred: " ++ exnMsg ex)

/-- Whether the Asana CSV renderer emits a row for this event. -/
def asanaIncludedB (today off : Int) (e : VEvent) : Bool :=
  match asanaEventStep today off e with
  | .ok (some _) => true
  | _ => false

/-! ### src/countdown.py: countdown text path -/

/-- The `format_summary_countdown_general` (src/countdown.py lines 96-119).
The `isinstance(start, datetime) or isinstance(start, date)` test on line 105
holds exactly when `calculate_days_remaining_general` succeeds, so the two are
matched together; the unknown-date branch fires for other start values. The
`.dt` accesses on lines 99-100 raise AttributeError when the property is
absent. The result is `some` line, or `none` for a filtered-out event. -/
def format_summary_countdown_general (today : Int) (plainText showDates : Bool)
    (off : Int) (e : VEvent) : Except PyExn (Option String) :=
  let summary := cleanTitle (e.summary.getD "")
  let location := e.location.getD "No Location Specified"
  match e.dtstart with
  | none => .error .attrError
  | some start =>
    match e.dtend with
    | none => .error .attrError
    | some dend =>
      let startDateStr := format_date_general start
      let endDateStr := format_date_with_year_general dend
      match calculate_days_remaining_general today start off with
      | some days =>
        let dateInfo := if showDates then " (" ++ startDateStr ++ " to " ++ endDateStr ++ ")" else ""
        if 0 ≤ days then
          if plainText then
            .ok (some ("- " ++ summary ++ " - " ++ location ++ " (in " ++ toString days ++ " days)" ++ dateInfo ++ "\n"))
          else
            .ok (some ("- **" ++ summary ++ "** - " ++ location ++ " (in " ++ toString days ++ " days)" ++ dateInfo ++ "\n"))
        else .ok none
      | none =>
        if plainText then
          .ok (some ("- " ++ summary ++ " - " ++ location ++ " (Date/Time Unknown)\n"))
        else
          .ok (some ("- **" ++ summary ++ "** - " ++ location ++ " (Date/Time Unknown)\n"))

/-- Whether the countdown text renderer emits a line for this event. -/
def countdownIncludedB (today : Int) (plainText showDates : Bool) (off : Int) (e : VEvent) : Bool :=
  match format_summary_countdown_general today plainText showDates off e with
  | .ok (some _) => true
  | _ => false

/-- The event loop of `parse_ical_to_summary_countdown_general`
(src/countdown.py lines 130-134): the concatenated lines in feed order and
the `upcoming_events` flag, or the first exception raised. -/
def processCountdown (today : Int) (plainText showDates : Bool) (off : Int) :
    List VEvent → Except PyExn (String × Bool)
  | [] => .ok ("", false)
  | e :: rest =>
    match format_summary_countdown_general today plainText showDates off e with
    | .error ex => .error ex
    | .ok line? =>
      match processCountdown today plainText showDates off rest with
      | .error ex => .error ex
      | .ok acc =>
        match line? with
        | some line => .ok (line ++ acc.1, true)
        | none => .ok acc

/-- The `parse_ical_to_summary_countdown_general` (src/countdown.py lines
121-144): always returns a string, which is either the rendered summary or
the descriptive error string of an `except` handler. -/
def parse_ical_to_summary_countdown_general (today : Int) (plainText showDates : Bool)
    (off : Int) (f : FetchOutcome) : String :=
  match f with
  | .reqError m => "Error fetching iCal data: " ++ m
  | .parseError m => "An error occurred: " ++ m
  | .ok events =>
    let heading := if plainText then "Upcoming Events:\n\n" else "### Upcoming Events:\n\n"
    match processCountdown today plainText showDates off events with
    | .ok acc => heading ++ acc.1 ++ (if acc.2 then "" else "No upcoming events found.\n")
    | .error ex => "An error occurred: " ++ exnMsg ex

/-! ### src/tranform.py: calendar normalization -/

/-- The `CalendarTransformer._normalize_datetime` (src/tranform.py lines 89-101):
a naive datetime gets UTC attached directly (`pytz.UTC.localize`, wall clock
unchanged), an aware one is shifted to UTC (`astimezone(pytz.UTC)`), and any
non-datetime value is returned unchanged. -/
def normalizeDatetime : PyVal → PyVal
  | .dtime w none => .dtime w (some 0)
  | .dtime w (some z) => .dtime (w - z) (some 0)
  | v => v

/-- The `start_dt + timedelta(hours=1)` (src/tranform.py line 124): adding an
hour to a datetime advances the wall clock 3600 seconds; Python adds only the
whole-day part of a timedelta to a `date`, so one hour leaves a date
unchanged; adding a timedelta to any other value raises TypeError. -/
def pyAddHour : PyVal → Except PyExn PyVal
  | .dtime w tz => .ok (.dtime (w + 3600) tz)
  | .date d => .ok (.date d)
  | .other => .error .typeError

/-- The event rebuilt by `CalendarTransformer._transform_event`
(src/tranform.py lines 103-129): the properties the new event carries. -/
structure TEvent where
  summary : String
  description : String
  location : String
  uid : Option String
  dtstart : Option PyVal
  dtend : Option PyVal
  created : Option PyVal
  dtstamp : Option PyVal
  lastModified : Option PyVal
  sequence : Option Int
  status : Option String
  transp : Option String
deriving DecidableEq, Repr

/-- The `CalendarTransformer._transform_event` (src/tranform.py lines 103-129):
summary defaults to "Untitled Event", description and location to the empty
string, uid passes through; when dtstart is present it is normalized and
dtend is the normalized source end or the start plus one hour; when dtstart
is absent neither dtstart nor dtend is added; the six listed properties pass
through when present. -/
def transformEvent (e : VEvent) : Except PyExn TEvent :=
  let base : PyVal → PyVal → TEvent := fun s en =>
    ⟨e.summary.getD "Untitled Event", e.description.getD "", e.location.getD "",
     e.uid, some s, some en, e.created, e.dtstamp, e.lastModified,
     e.sequence, e.status, e.transp⟩
  match e.dtstart with
  | none =>
    .ok ⟨e.summary.getD "Untitled Event", e.description.getD "", e.location.getD "",
         e.uid, none, none, e.created, e.dtstamp, e.lastModified,
         e.sequence, e.status, e.transp⟩
  | some v =>
    let startDt := normalizeDatetime v
    match e.dtend with
    | some w => .ok (base startDt (normalizeDatetime w))
    | none =>
      match pyAddHour startDt with
      | .ok endDt => .ok (base startDt endDt)
      | .error ex => .error ex

/-! ### The generic CSV renderer (spec-modelled) -/

/-- Modelled from the spec: `parse_ical_to_csv` is invoked by the CLI
(src/countdown.py line 185) but its definition is not among the source files
under src/. Following section 4.3 of the spec, a data row is emitted for each
included event (days remaining at the given offset is nonnegative; events
with a missing or unrecognized start are excluded from this filter) and holds
the cleaned title, the end date as "YYYY-MM-DD" or the empty string, and
notes built from location with the URL appended as " | url" (the URL alone
when location is empty). -/
def genericCsvRow (today off : Int) (e : VEvent) : Option (List String) :=
  match e.dtstart with
  | none => none
  | some start =>
    match calculate_days_remaining today start off with
    | none => none
    | some days =>
      if 0 ≤ days then
        let title := cleanTitle (e.summary.getD "")
        let dueDateStr := match e.dtend with
          | some v => format_date_asana v
          | none => ""
        let location := e.location.getD ""
        let url := e.url.getD ""
        let notes := if url = "" then location
                     else if location = "" then url
                     else location ++ " | " ++ url
        some [title, dueDateStr, notes]
      else none

/-- Modelled from the spec: the generic CSV renderer `parse_ical_to_csv`
called with `--csv` (src/countdown.py line 185; not defined under src/).
Header row ["Task", "Due Date", "Notes"], one data row per included event,
and the same descriptive error strings as the other renderers on fetch and
parse failures (spec section 7). -/
def parse_ical_to_csv (today off : Int) (f : FetchOutcome) : Sum String (List (List String)) :=
  match f with
  | .reqError m => .inl ("Error fetching iCal data: " ++ m)
  | .parseError m => .inl ("An error occurred: " ++ m)
  | .ok events => .inr (["Task", "Due Date", "Notes"] :: events.filterMap (genericCsvRow today off))

/-! ### The CLI output boundary for CSV modes -/

/-- One field as written by `csv.writer` with default QUOTE_MINIMAL quoting:
quoted, with inner quotes doubled, exactly when it holds a delimiter, quote
or line break. -/
def csvField (s : String) : String :=
  if s.data.any (fun c => c = ',' || c = '"' || c = '\n' || c = '\x0d') then
    "\"" ++ String.mk (s.data.foldr (fun c acc => if c = '"' then '"' :: '"' :: acc else c :: acc) []) ++ "\""
  else s

/-- The `csv.writer(sys.stdout).writerows(rows)`: comma-joined fields with CRLF
line terminators. -/
def renderCsv (rows : List (List String)) : String :=
  String.join (rows.map (fun r => String.intercalate "," (r.map csvField) ++ "\x0d\n"))

/-- The `__main__` branch for the CSV output formats (src/countdown.py lines
184-197): a string result is printed as-is, a row list is written through the
CSV writer. -/
def printedCsvOutput (r : Sum String (List (List String))) : String :=
  match r with
  | .inl s => s
  | .inr rows => renderCsv rows

/-! ### Concrete sample data -/

/-- An event carrying only the countdown-relevant properties. -/
def mkSimpleEvent (su loc url : Option String) (st en : Option PyVal) : VEvent :=
  ⟨su, loc, url, st, en, none, none, none, none, none, none, none, none⟩

/-- The day number of 2025-01-10, the "today" of the worked examples in the
spec. -/
def sampleToday : Int := (daysFromCivil 2025 1 10 : Int)

/-- An event with a date start and no end value. -/
def evNoEnd : VEvent :=
  mkSimpleEvent (some "Roadtrip") (some "Austin") none
    (some (.date (daysFromCivil 2025 1 15))) none

/-- An event with no start value. -/
def evNoStart : VEvent :=
  mkSimpleEvent (some "Mystery") none none none none

/-- A well-formed event five days after `sampleToday`. -/
def evGood : VEvent :=
  mkSimpleEvent (some "PLACEHOLDER ONLY: Conference") (some "Austin") none
    (some (.date (daysFromCivil 2025 1 15)))
    (some (.date (daysFromCivil 2025 1 16)))

/-- The worked CSV example of the spec: title " PLACEHOLDER ONLY: Flight to
NYC ", location "JFK", url "http://x", end date 2025-02-01. -/
def evFlight : VEvent :=
  mkSimpleEvent (some " PLACEHOLDER ONLY: Flight to NYC ") (some "JFK") (some "http://x")
    (some (.date (daysFromCivil 2025 1 15)))
    (some (.date (daysFromCivil 2025 2 1)))

/-- The naive datetime 2025-03-01T10:00:00 with no end value, the input of
the normalized-calendar round-trip example. -/
def evNaiveNoEnd : VEvent :=
  mkSimpleEvent (some "Trip") none none
    (some (.dtime (civilSec 2025 3 1 10 0 0) none)) none

/-! ### Helper lemmas: string operations -/

theorem replaceAllF_congr (p : List Char) :
    ∀ (n m : Nat) (s : List Char), s.length ≤ n → s.length ≤ m →
      replaceAllF p n s = replaceAllF p m s := by
  intro n
  induction n with
  | zero =>
    intro m s hn _
    have hs : s = [] := List.length_eq_zero.mp (Nat.le_zero.mp hn)
    subst hs
    cases m <;> rfl
  | succ n ih =>
    intro m s hn hm
    cases s with
    | nil => cases m <;> rfl
    | cons c rest =>
      have hrn : rest.length ≤ n := by simp at hn; omega
      cases m with
      | zero => simp at hm
      | succ m =>
        have hrm : rest.length ≤ m := by simp at hm; omega
        have hd : (rest.drop (p.length - 1)).length ≤ rest.length := by
          rw [List.length_drop]; omega
        simp only [replaceAllF]
        by_cases hp : p.isPrefixOf (c :: rest)
        · rw [if_pos hp, if_pos hp]
          exact ih m _ (le_trans hd hrn) (le_trans hd hrm)
        · rw [if_neg hp, if_neg hp, ih m rest hrn hrm]

theorem replaceAll_cons_pos {p : List Char} {c : Char} {rest : List Char}
    (hne : p ≠ []) (hp : p.isPrefixOf (c :: rest)) :
    replaceAll p (c :: rest) = replaceAll p (rest.drop (p.length - 1)) := by
  cases p with
  | nil => exact absurd rfl hne
  | cons a p' =>
    show replaceAllF (a :: p') (c :: rest).length (c :: rest)
        = replaceAllF (a :: p') (rest.drop ((a :: p').length - 1)).length
            (rest.drop ((a :: p').length - 1))
    have h1 : replaceAllF (a :: p') (c :: rest).length (c :: rest)
        = replaceAllF (a :: p') rest.length (rest.drop ((a :: p').length - 1)) := by
      rw [List.length_cons]
      simp only [replaceAllF]
      rw [if_pos hp]
    rw [h1]
    apply replaceAllF_congr
    · rw [List.length_drop]; omega
    · exact le_rfl

theorem replaceAll_cons_neg {p : List Char} {c : Char} {rest : List Char}
    (hp : ¬ p.isPrefixOf (c :: rest)) :
    replaceAll p (c :: rest) = c :: replaceAll p rest := by
  cases p with
  | nil => exact absurd (by simp [List.isPrefixOf]) hp
  | cons a p' =>
    show replaceAllF (a :: p') (c :: rest).length (c :: rest)
        = c :: replaceAllF (a :: p') rest.length rest
    rw [List.length_cons]
    simp only [replaceAllF]
    rw [if_neg hp]

theorem replaceAll_of_not_contains {p : List Char} :
    ∀ {s : List Char}, containsSub p s = false → replaceAll p s = s := by
  intro s
  induction s with
  | nil => intro _; cases p <;> rfl
  | cons c rest ih =>
    intro h
    simp only [containsSub, Bool.or_eq_false_iff] at h
    rw [replaceAll_cons_neg (by simp [h.1]), ih h.2]

theorem isPrefixOf_append_self : ∀ (p t : List Char), p.isPrefixOf (p ++ t) = true := by
  intro p
  induction p with
  | nil => intro t; simp [List.isPrefixOf]
  | cons a p' ih => intro t; simp [List.isPrefixOf, ih t]

theorem append_drop_of_isPrefixOf :
    ∀ (p l : List Char), p.isPrefixOf l = true → p ++ l.drop p.length = l := by
  intro p
  induction p with
  | nil => intro l _; simp
  | cons a p' ih =>
    intro l h
    cases l with
    | nil => simp [List.isPrefixOf] at h
    | cons b l' =>
      simp only [List.isPrefixOf, Bool.and_eq_true, beq_iff_eq] at h
      obtain ⟨rfl, h2⟩ := h
      simpa using ih l' h2

theorem replaceAll_append_self {p : List Char} (hne : p ≠ []) (t : List Char) :
    replaceAll p (p ++ t) = replaceAll p t := by
  obtain ⟨a, p', rfl⟩ : ∃ a p', p = a :: p' := by
    cases p with
    | nil => exact absurd rfl hne
    | cons a p' => exact ⟨a, p', rfl⟩
  rw [List.cons_append, replaceAll_cons_pos hne (by simp [isPrefixOf_append_self (a :: p') t])]
  congr 1
  simp

theorem dropWhile_dropWhile (q : Char → Bool) (l : List Char) :
    (l.dropWhile q).dropWhile q = l.dropWhile q := by
  induction l with
  | nil => rfl
  | cons c rest ih =>
    by_cases h : q c
    · simp [List.dropWhile_cons_of_pos h, ih]
    · simp [List.dropWhile_cons_of_neg h]

theorem head_fails_of_dropWhile_eq_cons {q : Char → Bool} :
    ∀ {l : List Char} {c : Char} {t : List Char}, l.dropWhile q = c :: t → q c = false := by
  intro l
  induction l with
  | nil => intro c t h; simp [List.dropWhile] at h
  | cons a rest ih =>
    intro c t h
    by_cases ha : q a
    · exact ih (by simpa [List.dropWhile_cons_of_pos ha] using h)
    · rw [List.dropWhile_cons_of_neg ha] at h
      cases h
      simpa using ha

theorem exists_append_dropWhile (q : Char → Bool) (l : List Char) :
    ∃ u, u ++ l.dropWhile q = l := by
  induction l with
  | nil => exact ⟨[], rfl⟩
  | cons c rest ih =>
    by_cases h : q c
    · obtain ⟨u, hu⟩ := ih
      exact ⟨c :: u, by simp [List.dropWhile_cons_of_pos h, hu]⟩
    · exact ⟨[], by simp [List.dropWhile_cons_of_neg h]⟩

theorem dropWhile_pyStrip_part (q : Char → Bool) (l : List Char) :
    (((l.dropWhile q).reverse.dropWhile q).reverse).dropWhile q
      = ((l.dropWhile q).reverse.dropWhile q).reverse := by
  cases hA : l.dropWhile q with
  | nil => simp
  | cons c A' =>
    have hc : q c = false := head_fails_of_dropWhile_eq_cons hA
    obtain ⟨u, hu⟩ := exists_append_dropWhile q (c :: A').reverse
    have hsplit : ((c :: A').reverse.dropWhile q).reverse ++ u.reverse = c :: A' := by
      have := congrArg List.reverse hu
      simpa [List.reverse_append] using this
    cases hB : ((c :: A').reverse.dropWhile q).reverse with
    | nil => simp
    | cons b B' =>
      rw [hB] at hsplit
      have hb : b = c := by
        have := congrArg (fun x => x.head?) hsplit
        simpa using this
      subst hb
      exact List.dropWhile_cons_of_neg (by simp [hc])

theorem pyStrip_lstrip (l : List Char) :
    (pyStrip l).dropWhile isPySpace = pyStrip l := by
  unfold pyStrip
  exact dropWhile_pyStrip_part isPySpace l

theorem pyStrip_rstrip (l : List Char) :
    ((pyStrip l).reverse.dropWhile isPySpace).reverse = pyStrip l := by
  unfold pyStrip
  rw [List.reverse_reverse, dropWhile_dropWhile]

theorem pyStrip_idem (l : List Char) : pyStrip (pyStrip l) = pyStrip l := by
  have h : pyStrip (pyStrip l)
      = (((pyStrip l).dropWhile isPySpace).reverse.dropWhile isPySpace).reverse := rfl
  rw [h, pyStrip_lstrip, pyStrip_rstrip]

/-! ### Helper lemmas: exception propagation through the event loops -/

theorem calc_general_eq_calc :
    calculate_days_remaining_general = calculate_days_remaining := rfl

theorem asanaEventStep_no_start {today off : Int} {e : VEvent} (h : e.dtstart = none) :
    asanaEventStep today off e = .error .attrError := by
  simp [asanaEventStep, h]

theorem format_summary_no_start {today off : Int} {pt sd : Bool} {e : VEvent}
    (h : e.dtstart = none) :
    format_summary_countdown_general today pt sd off e = .error .attrError := by
  simp [format_summary_countdown_general, h]

theorem processAsana_error_of_mem (today off : Int) :
    ∀ {events : List VEvent} {e : VEvent}, e ∈ events → e.dtstart = none →
      ∃ ex, processAsana today off events = .error ex := by
  intro events
  induction events with
  | nil => intro e he _; cases he
  | cons a rest ih =>
    intro e he hs
    rcases List.mem_cons.mp he with rfl | hmem
    · exact ⟨.attrError, by simp [processAsana, asanaEventStep_no_start hs]⟩
    · cases hstep : asanaEventStep today off a with
      | error ex => exact ⟨ex, by simp [processAsana, hstep]⟩
      | ok row? =>
        obtain ⟨ex, hex⟩ := ih hmem hs
        exact ⟨ex, by simp [processAsana, hstep, hex]⟩

theorem processCountdown_error_of_mem (today : Int) (pt sd : Bool) (off : Int) :
    ∀ {events : List VEvent} {e : VEvent}, e ∈ events → e.dtstart = none →
      ∃ ex, processCountdown today pt sd off events = .error ex := by
  intro events
  induction events with
  | nil => intro e he _; cases he
  | cons a rest ih =>
    intro e he hs
    rcases List.mem_cons.mp he with rfl | hmem
    · exact ⟨.attrError, by simp [processCountdown, format_summary_no_start hs]⟩
    · cases hstep : format_summary_countdown_general today pt sd off a with
      | error ex => exact ⟨ex, by simp [processCountdown, hstep]⟩
      | ok line? =>
        obtain ⟨ex, hex⟩ := ih hmem hs
        exact ⟨ex, by simp [processCountdown, hstep, hex]⟩

/-! ### Claim C2 -/

/-- Claim C2, counterexample: with today = 0, a date-valued start on day 0
and offset 0, increasing the offset by k = 1 takes days_remaining from 0 to
-1, not to 0 + 1 as the claim states. -/
theorem c2_counterexample :
    calculate_days_remaining 0 (PyVal.date 0) 0 = some 0
    ∧ calculate_days_remaining 0 (PyVal.date 0) (0 + 1) = some (-1)
    ∧ ((-1 : Int) = 0 + 1 → False) := by
  refine ⟨rfl, rfl, by decide⟩

/-- Claim C2, amended: increasing the report_due offset by k DECREASES
days_remaining by k: whenever days_remaining(event, offset) is defined and
equals n, days_remaining(event, offset + k) = n - k. -/
theorem c2_offset_shift (today : Int) (v : PyVal) (off k n : Int)
    (h : calculate_days_remaining today v off = some n) :
    calculate_days_remaining today v (off + k) = some (n - k) := by
  cases v with
  | dtime w tz =>
    simp [calculate_days_remaining, dateComponent] at h ⊢
    omega
  | date d =>
    simp [calculate_days_remaining, dateComponent] at h ⊢
    omega
  | other =>
    simp [calculate_days_remaining, dateComponent] at h

/-- Claim C2, witness: the amended offset-shift law applied at today = 0,
start day 5, offset 0, k = 2. -/
theorem c2_witness :
    calculate_days_remaining 0 (PyVal.date 5) (0 + 2) = some (5 - 2) :=
  c2_offset_shift 0 (PyVal.date 5) 0 2 5 rfl

/-! ### Claim C4 -/

/-- Claim C4: the date normalizer attaches UTC directly to a timezone-naive
datetime without shifting the wall clock, shifts an already-aware datetime to
UTC (preserving the denoted instant wall - offset), and passes plain dates
and non-datetime values through unchanged, never promoting them to
datetimes. -/
theorem c4_normalize_datetime :
    (∀ w : Int, normalizeDatetime (PyVal.dtime w none) = PyVal.dtime w (some 0))
    ∧ (∀ w z : Int, normalizeDatetime (PyVal.dtime w (some z)) = PyVal.dtime (w - z) (some 0)
        ∧ (w - z) - 0 = w - z)
    ∧ (∀ d : Int, normalizeDatetime (PyVal.date d) = PyVal.date d)
    ∧ normalizeDatetime PyVal.other = PyVal.other := by
  refine ⟨fun w => rfl, fun w z => ⟨rfl, by ring⟩, fun d => rfl, rfl⟩

/-! ### Claim C5 -/

/-- Claim C5: transforming an event whose dtstart is the naive datetime
2025-03-01T10:00:00 and that has no dtend yields dtstart =
2025-03-01T10:00:00 UTC and dtend = 2025-03-01T11:00:00 UTC (the missing end
defaulted to start + 1 hour). -/
theorem c5_default_end_one_hour :
    (transformEvent evNaiveNoEnd).map (fun t => (t.dtstart, t.dtend))
      = Except.ok (some (PyVal.dtime (civilSec 2025 3 1 10 0 0) (some 0)),
                   some (PyVal.dtime (civilSec 2025 3 1 11 0 0) (some 0))) := by
  rfl

/-! ### Claim C10 -/

/-- Claim C10: when the fetch raises a RequestException or the fetch/parse
stage raises any other exception, both the Asana CSV generator and the
countdown generator return the descriptive error string instead of raising,
and the main branch prints exactly that string in place of the normal
output. -/
theorem c10_error_strings (today off : Int) (pt sd : Bool) (msg : String) :
    parse_ical_to_asana_csv today off (.reqError msg) = .inl ("Error fetching iCal data: " ++ msg)
    ∧ parse_ical_to_asana_csv today off (.parseError msg) = .inl ("An error occurred: " ++ msg)
    ∧ printedCsvOutput (parse_ical_to_asana_csv today off (.reqError msg))
        = "Error fetching iCal data: " ++ msg
    ∧ printedCsvOutput (parse_ical_to_asana_csv today off (.parseError msg))
        = "An error occurred: " ++ msg
    ∧ parse_ical_to_summary_countdown_general today pt sd off (.reqError msg)
        = "Error fetching iCal data: " ++ msg
    ∧ parse_ical_to_summary_countdown_general today pt sd off (.parseError msg)
        = "An error occurred: " ++ msg := by
  exact ⟨rfl, rfl, rfl, rfl, rfl, rfl⟩

theorem transformEvent_no_start {e : VEvent} (h : e.dtstart = none) :
    transformEvent e
      = .ok ⟨e.summary.getD "Untitled Event", e.description.getD "",
             e.location.getD "", e.uid, none, none, e.created, e.dtstamp,
             e.lastModified, e.sequence, e.status, e.transp⟩ := by
  simp [transformEvent, h]

/-! ### Claim C1 -/

/-- Claim C1, counterexample: an event with a date start five days ahead of
today but no end value has days_remaining = 5 >= 0, yet neither the Asana CSV
renderer nor the countdown text renderer includes it; instead the whole Asana
run collapses to an error string. -/
theorem c1_counterexample :
    calculate_days_remaining sampleToday (PyVal.date (daysFromCivil 2025 1 15)) 0 = some 5
    ∧ asanaIncludedB sampleToday 0 evNoEnd = false
    ∧ countdownIncludedB sampleToday false false 0 evNoEnd = false
    ∧ parse_ical_to_asana_csv sampleToday 0 (.ok [evNoEnd])
        = .inl ("An error occurred: " ++ exnMsg .attrError) := by
  exact ⟨rfl, rfl, rfl, rfl⟩

/-- Claim C1, amended: for every event with a date or datetime start AND a
present end value, the countdown text renderer and the Asana CSV renderer
include the event if and only if days_remaining >= 0 (an event with a start
but a missing end instead raises and aborts the whole run). -/
theorem c1_included_iff_days_nonneg (today off : Int) (pt sd : Bool)
    (e : VEvent) (v w : PyVal) (n : Int)
    (h1 : e.dtstart = some v) (h2 : e.dtend = some w)
    (h3 : calculate_days_remaining today v off = some n) :
    (asanaIncludedB today off e = true ↔ 0 ≤ n)
    ∧ (countdownIncludedB today pt sd off e = true ↔ 0 ≤ n) := by
  refine ⟨?_, ?_⟩ <;> by_cases hn : 0 ≤ n
  · simp [asanaIncludedB, asanaEventStep, h1, h2, h3, hn]
  · simp [asanaIncludedB, asanaEventStep, h1, h2, h3, hn]
  · cases pt <;>
      simp [countdownIncludedB, format_summary_countdown_general, h1, h2,
            calc_general_eq_calc, h3, hn]
  · cases pt <;>
      simp [countdownIncludedB, format_summary_countdown_general, h1, h2,
            calc_general_eq_calc, h3, hn]

/-- Claim C1, witness: the inclusion criterion applied to a well-formed event
five days ahead of today. -/
theorem c1_witness :
    (asanaIncludedB sampleToday 0 evGood = true ↔ 0 ≤ (5 : Int))
    ∧ (countdownIncludedB sampleToday false false 0 evGood = true ↔ 0 ≤ (5 : Int)) :=
  c1_included_iff_days_nonneg sampleToday 0 false false evGood
    (PyVal.date (daysFromCivil 2025 1 15)) (PyVal.date (daysFromCivil 2025 1 16)) 5
    rfl rfl rfl

/-! ### Claim C3 -/

/-- Claim C3: the generic CSV renderer (modelled from the spec, since
`parse_ical_to_csv` is called by the CLI but not defined under src/) emits
the header row ["Task", "Due Date", "Notes"] followed by one row per
included event; on the worked example of the spec (title " PLACEHOLDER ONLY:
Flight to NYC ", location "JFK", url "http://x", end date 2025-02-01) the
data row is ["Flight to NYC", "2025-02-01", "JFK | http://x"]. -/
theorem c3_generic_csv :
    (∀ (today off : Int) (events : List VEvent),
      parse_ical_to_csv today off (.ok events)
        = .inr (["Task", "Due Date", "Notes"] :: events.filterMap (genericCsvRow today off)))
    ∧ parse_ical_to_csv sampleToday 0 (.ok [evFlight])
        = .inr [["Task", "Due Date", "Notes"],
                ["Flight to NYC", "2025-02-01", "JFK | http://x"]] := by
  exact ⟨fun today off events => rfl, rfl⟩

/-! ### Claim C6 -/

/-- Claim C6, counterexample: on the summary "A PLACEHOLDER ONLY: B" the
literal occurs but not as a prefix; the code removes it anyway (str.replace
removes all occurrences), producing "A  B", while the claim says it is left
in place. -/
theorem c6_counterexample :
    cleanTitle "A PLACEHOLDER ONLY: B" = "A  B"
    ∧ claimPrefixOnlyTitle "A PLACEHOLDER ONLY: B" = "A PLACEHOLDER ONLY: B"
    ∧ cleanTitle "A PLACEHOLDER ONLY: B" ≠ claimPrefixOnlyTitle "A PLACEHOLDER ONLY: B" := by
  refine ⟨rfl, rfl, by decide⟩

/-- Claim C6, amended: the rendered title is the summary with EVERY
occurrence of the literal removed and surrounding whitespace trimmed; when
the literal occurs only as a prefix this coincides with prefix stripping, and
when it does not occur at all only the whitespace is trimmed. -/
theorem c6_title_cleaning (s : String) :
    (placeholderL.isPrefixOf s.data = true →
      containsSub placeholderL (s.data.drop placeholderL.length) = false →
      cleanTitle s = String.mk (pyStrip (s.data.drop placeholderL.length)))
    ∧ (containsSub placeholderL s.data = false →
      cleanTitle s = String.mk (pyStrip s.data)) := by
  constructor
  · intro hps hno
    show String.mk (pyStrip (replaceAll placeholderL s.data)) = _
    have hsplit := append_drop_of_isPrefixOf placeholderL s.data hps
    have hrw : replaceAll placeholderL s.data
        = s.data.drop placeholderL.length := by
      calc replaceAll placeholderL s.data
          = replaceAll placeholderL (placeholderL ++ s.data.drop placeholderL.length) := by
            rw [hsplit]
        _ = replaceAll placeholderL (s.data.drop placeholderL.length) :=
            replaceAll_append_self (by decide) _
        _ = s.data.drop placeholderL.length := replaceAll_of_not_contains hno
    rw [hrw]
  · intro hno
    show String.mk (pyStrip (replaceAll placeholderL s.data)) = _
    rw [replaceAll_of_not_contains hno]

/-- Claim C6, witness: the amended cleaning law applied to a summary where
the literal occurs exactly once, as a prefix. -/
theorem c6_witness :
    cleanTitle "PLACEHOLDER ONLY: Flight"
      = String.mk (pyStrip (("PLACEHOLDER ONLY: Flight").data.drop placeholderL.length)) :=
  (c6_title_cleaning "PLACEHOLDER ONLY: Flight").1 (by decide) (by decide)

/-! ### Claim C7 -/

/-- Claim C7, counterexample: removing the literal can create a new
occurrence of it, so cleaning is not idempotent: one pass over
"PLACEHPLACEHOLDER ONLY:OLDER ONLY:" yields "PLACEHOLDER ONLY:", and a
second pass yields the empty string. -/
theorem c7_counterexample :
    cleanTitle "PLACEHPLACEHOLDER ONLY:OLDER ONLY:" = "PLACEHOLDER ONLY:"
    ∧ cleanTitle (cleanTitle "PLACEHPLACEHOLDER ONLY:OLDER ONLY:") = ""
    ∧ cleanTitle (cleanTitle "PLACEHPLACEHOLDER ONLY:OLDER ONLY:")
        ≠ cleanTitle "PLACEHPLACEHOLDER ONLY:OLDER ONLY:" := by
  refine ⟨rfl, rfl, by decide⟩

/-- Claim C7, amended: title cleaning is idempotent on every string whose
once-cleaned result contains no occurrence of the literal (removal can
manufacture a new occurrence, and only then does a second pass differ). -/
theorem c7_idempotent_when_stable (s : String)
    (h : containsSub placeholderL (cleanTitle s).data = false) :
    cleanTitle (cleanTitle s) = cleanTitle s := by
  have h2 : containsSub placeholderL (pyStrip (replaceAll placeholderL s.data)) = false := h
  show String.mk (pyStrip (replaceAll placeholderL (pyStrip (replaceAll placeholderL s.data))))
      = String.mk (pyStrip (replaceAll placeholderL s.data))
  rw [replaceAll_of_not_contains h2, pyStrip_idem]

/-- Claim C7, witness: the conditional idempotence applied to a summary with
a single prefix occurrence of the literal. -/
theorem c7_witness :
    cleanTitle (cleanTitle " PLACEHOLDER ONLY: trip ") = cleanTitle " PLACEHOLDER ONLY: trip " :=
  c7_idempotent_when_stable " PLACEHOLDER ONLY: trip " (by decide)

/-! ### Claim C8 -/

/-- Claim C8 names the intended behavior (render the event with end "" in
CSV and "Unknown" in the countdown text, as the dead fallback branches of
format_date_asana and format_date_with_year_general provide); the code
instead evaluates `event.get("DTEND").dt` unguarded, so a missing end raises
AttributeError and the whole run is replaced by an error string. This
theorem evaluates the code at the failing input: an event with a date start
and no end value. -/
theorem c8_missing_end_raises :
    asanaEventStep sampleToday 0 evNoEnd = .error .attrError
    ∧ format_summary_countdown_general sampleToday false false 0 evNoEnd = .error .attrError
    ∧ parse_ical_to_asana_csv sampleToday 0 (.ok [evNoEnd])
        = .inl ("An error occurred: " ++ exnMsg .attrError)
    ∧ parse_ical_to_summary_countdown_general sampleToday false false 0 (.ok [evNoEnd])
        = "An error occurred: " ++ exnMsg .attrError := by
  exact ⟨rfl, rfl, rfl, rfl⟩

/-! ### Claim C9 -/

/-- Claim C9, counterexample: a feed with a start-less event followed by a
well-formed one does NOT render the well-formed event; the whole Asana run
collapses to an error string, while the well-formed event alone renders
fine. -/
theorem c9_counterexample :
    parse_ical_to_asana_csv sampleToday 0 (.ok [evNoStart, evGood])
      = .inl ("An error occurred: " ++ exnMsg .attrError)
    ∧ parse_ical_to_asana_csv sampleToday 0 (.ok [evGood])
      = .inr [asanaHeader,
              ["", "2025-01-10", "", "2025-01-10", "Conference", "", "", "",
               "2025-01-15", "2025-01-16", "", "Austin", "", "", "", "", "", "",
               "2025-01-15"]] := by
  exact ⟨rfl, rfl⟩

/-- Claim C9, amended: an event whose source lacks a start value makes the
countdown and CSV paths abort the ENTIRE run (the whole output is replaced
by an error string, and no event of the feed is rendered), while the
transform path keeps the event, emitting it without dtstart and dtend. -/
theorem c9_missing_start_aborts (today off : Int) (pt sd : Bool)
    (events : List VEvent) (e : VEvent) (hmem : e ∈ events) (hs : e.dtstart = none) :
    (∃ ex, parse_ical_to_asana_csv today off (.ok events)
        = .inl ("An error occurred: " ++ exnMsg ex))
    ∧ (∃ ex, parse_ical_to_summary_countdown_general today pt sd off (.ok events)
        = "An error occurred: " ++ exnMsg ex)
    ∧ (∃ t, transformEvent e = .ok t ∧ t.dtstart = none ∧ t.dtend = none) := by
  refine ⟨?_, ?_, ?_⟩
  · obtain ⟨ex, hex⟩ := processAsana_error_of_mem today off hmem hs
    exact ⟨ex, by simp [parse_ical_to_asana_csv, hex]⟩
  · obtain ⟨ex, hex⟩ := processCountdown_error_of_mem today pt sd off hmem hs
    exact ⟨ex, by simp [parse_ical_to_summary_countdown_general, hex]⟩
  · exact ⟨_, transformEvent_no_start hs, rfl, rfl⟩

/-- Claim C9, witness: the abort behavior applied to the singleton feed
holding only a start-less event. -/
theorem c9_witness :
    (∃ ex, parse_ical_to_asana_csv 0 0 (.ok [evNoStart])
        = .inl ("An error occurred: " ++ exnMsg ex))
    ∧ (∃ ex, parse_ical_to_summary_countdown_general 0 false false 0 (.ok [evNoStart])
        = "An error occurred: " ++ exnMsg ex)
    ∧ (∃ t, transformEvent evNoStart = .ok t ∧ t.dtstart = none ∧ t.dtend = none) :=
  c9_missing_start_aborts 0 0 false false [evNoStart] evNoStart (by simp) rfl
